import Mathlib

/-!
Shallow embedding of the gdriscv remote agent (`agent_server.py`) together
with the job-store and terminal-session registry that its desktop client
(`gdriscv_gui.py`) drives.  Python strings are modelled as `List Char`
(`Str`), filesystem paths as lists of path segments, and the OS path
canonicalization (`pathlib.Path.resolve`, which also chases symlinks) as an
abstract function `canon : FsPath → FsPath`; `lexCanon` is its concrete
symlink-free instance used for evaluation.
-/

/-- Python strings are modelled as lists of characters. -/
abbrev Str := List Char

/-- One path segment (one component of a slash-separated path). -/
abbrev Seg := List Char

/-- A filesystem path, as the list of its segments (no leading-slash marker:
all paths handled by the agent are joined onto the base directory). -/
abbrev FsPath := List Seg

/-- Left bracket character of a Java-`Map.toString()` style body. -/
def lbraceChar : Char := Char.ofNat 123

/-- Right bracket character of a Java-`Map.toString()` style body. -/
def rbraceChar : Char := Char.ofNat 125

/-- Model of Python `str.strip()` (ASCII whitespace suffices for this code). -/
def strip (s : Str) : Str :=
  ((s.dropWhile Char.isWhitespace).reverse.dropWhile Char.isWhitespace).reverse

/-- Model of Python `str.split(sep)` for a one-character separator: splits at
every occurrence, keeping empty pieces (`''.split(c) = ['']`). -/
def splitOnCh (c : Char) : Str → List Str
  | [] => [[]]
  | x :: xs =>
    let r := splitOnCh c xs
    if x = c then [] :: r
    else match r with
      | [] => [[x]]
      | y :: ys => (x :: y) :: ys

/-- Model of Python `s.split(sep, 1)` on `'='` when `'=' in s`: the text
before the first `'='` and the text after it; `none` when there is no `'='`. -/
def splitFirstEq : Str → Option (Str × Str)
  | [] => none
  | c :: rest =>
    if c = '=' then some ([], rest)
    else (splitFirstEq rest).map (fun p => (c :: p.1, p.2))

/-- `raw_path.lstrip("/")` from `Handler._resolve_path` (agent_server.py:122). -/
def lstripSlash (s : Str) : Str := s.dropWhile (· = '/')

/-- Splitting a relative path into segments the way `pathlib` parses it:
empty segments and `.` segments are dropped, `..` segments are kept (they
are handled by canonicalization). -/
def splitSegs (s : Str) : List Seg :=
  (splitOnCh '/' s).filter (fun t => !(t == ([] : Str)) && !(t == ['.']))

/-- The concrete, symlink-free instance of path canonicalization: `..` pops
the last segment (staying at the root when there is none), mirroring what
`Path.resolve()` computes on a filesystem without symlinks. -/
def lexCanon (p : FsPath) : FsPath :=
  p.foldl (fun acc seg => if seg = ['.', '.'] then acc.dropLast else acc ++ [seg]) []

/-- `_is_within(child, base)` (agent_server.py:22-27): canonicalize BOTH the
child and the base with `canon` (the model of `Path.resolve()`), then test
`child.relative_to(base)`, which succeeds exactly when the resolved base is
a segment-prefix of the resolved child. -/
def is_within (canon : FsPath → FsPath) (child base : FsPath) : Bool :=
  (canon base).isPrefixOf (canon child)

/-- Outcome of `Handler._resolve_path`: the resolved absolute path, or the
`ValueError("path escapes base dir")` modelled as `pathEscape`. -/
inductive PathResult
  | ok (target : FsPath)
  | pathEscape
deriving DecidableEq, Repr

/-- `Handler._resolve_path(raw_path)` (agent_server.py:120-126): canonicalize
the base, strip leading slashes from the raw path, join and canonicalize,
then require containment via `_is_within`. -/
def resolve_path (canon : FsPath → FsPath) (baseDir : FsPath) (raw : Str) : PathResult :=
  let base := canon baseDir
  let target := canon (base ++ splitSegs (lstripSlash raw))
  if is_within canon target base then .ok target else .pathEscape

/-- Python-dict insertion `out[key] = value`: overwrite the value of an
existing key (keeping its position), otherwise append the new pair. -/
def dictInsert {κ ν : Type} [DecidableEq κ] (out : List (κ × ν)) (k : κ) (v : ν) :
    List (κ × ν) :=
  if out.any (fun p => decide (p.1 = k)) then
    out.map (fun p => if p.1 = k then (p.1, v) else p)
  else out ++ [(k, v)]

/-- Python-dict lookup `d.get(q)` over an association list (keys unique in
every dict the model builds). -/
def lookupKV {κ ν : Type} [DecidableEq κ] (l : List (κ × ν)) (q : κ) : Option ν :=
  match l with
  | [] => none
  | p :: rest => if q = p.1 then some p.2 else lookupKV rest q

/-- The Python dict merge `{**base, **extra}`: start from `base` and apply
each `extra` binding in order, overwriting existing keys. -/
def dict_merge {κ ν : Type} [DecidableEq κ] (base extra : List (κ × ν)) :
    List (κ × ν) :=
  extra.foldl (fun m kv => dictInsert m kv.1 kv.2) base

/-- The Java `Map.toString()` fallback branch of `_parse_body_as_object`
(agent_server.py:60-71): strip the braces, split on commas, and take
`key=value` pairs, ignoring malformed parts. -/
def parse_java_map (text : Str) : List (Str × Str) :=
  let inner := strip (text.drop 1).dropLast
  if inner = [] then []
  else
    (splitOnCh ',' inner).foldl
      (fun out part =>
        let part := strip part
        if part = [] then out
        else match splitFirstEq part with
          | none => out
          | some (k, v) => dictInsert out (strip k) (strip v))
      []

/-- `str.replace('+', ' ')` as applied by `urllib.parse.parse_qsl`. -/
def plusToSpace (s : Str) : Str := s.map (fun c => if c = '+' then ' ' else c)

/-- Value of a hexadecimal digit character. -/
def hexVal (c : Char) : Option Nat :=
  if '0' ≤ c ∧ c ≤ '9' then some (c.toNat - '0'.toNat)
  else if 'a' ≤ c ∧ c ≤ 'f' then some (10 + c.toNat - 'a'.toNat)
  else if 'A' ≤ c ∧ c ≤ 'F' then some (10 + c.toNat - 'A'.toNat)
  else none

/-- Percent-decoding as done by `urllib.parse.unquote`: a `%` followed by two
hex digits becomes the encoded byte, malformed escapes are left verbatim
(faithful for ASCII payloads; multi-byte UTF-8 sequences are out of scope of
the claims). -/
def percentDecode : Str → Str
  | [] => []
  | '%' :: a :: b :: rest2 =>
    match hexVal a, hexVal b with
    | some x, some y => Char.ofNat (16 * x + y) :: percentDecode rest2
    | _, _ => '%' :: percentDecode (a :: b :: rest2)
  | c :: rest => c :: percentDecode rest

/-- Decoding of a query-string token: `+` to space, then percent-decoding,
as `parse_qsl` applies to each name and value. -/
def unquotePlus (s : Str) : Str := percentDecode (plusToSpace s)

/-- `urllib.parse.parse_qsl(text, keep_blank_values=True)`: split on `&`,
drop empty fields, split each field at its first `=` (a field without `=`
keeps a blank value), and decode names and values. -/
def parse_qsl (s : Str) : List (Str × Str) :=
  (splitOnCh '&' s).filterMap
    (fun nv =>
      if nv = [] then none
      else match splitFirstEq nv with
        | some (n, v) => some (unquotePlus n, unquotePlus v)
        | none => some (unquotePlus nv, []))

/-- The query-string fallback of `_parse_body_as_object` (agent_server.py:73-75):
`parse_qs` groups repeated keys and the handler keeps the LAST value of each
key (`v[-1]`), in first-occurrence key order. -/
def parse_qs_last (s : Str) : List (Str × Str) :=
  (parse_qsl s).foldl (fun out kv => dictInsert out kv.1 kv.2) []

/-- `s[0] == c` for a Python `str.startswith` test on a single character. -/
def headIs (c : Char) (s : Str) : Bool :=
  match s with
  | x :: _ => x = c
  | [] => false

/-- `s[-1] == c` for a Python `str.endswith` test on a single character. -/
def lastIs (c : Char) (s : Str) : Bool :=
  match s.getLast? with
  | some x => x = c
  | none => false

/-- `_parse_body_as_object(body)` (agent_server.py:39-77).  The outcome of
`json.loads(text)` (a stdlib call) is supplied as `jsonResult`: `some m`
models `json.loads` returning the dict `m`, `none` models it failing or
returning a non-dict.  After the JSON attempt, the Java-`Map.toString()`
branch requires braces at both ends plus an `=`, and the query-string branch
requires both an `=` and an `&` in the text. -/
def parse_body_as_object (jsonResult : Option (List (Str × Str))) (body : Str) :
    List (Str × Str) :=
  let text := strip body
  if text = [] then []
  else match jsonResult with
  | some m => m
  | none =>
    if headIs lbraceChar text && lastIs rbraceChar text && text.contains '=' then
      parse_java_map text
    else if text.contains '=' && text.contains '&' then
      parse_qs_last text
    else []

/-- `_b64_decode_maybe(value)` (agent_server.py:80-86).  The stdlib base64
decoder is supplied abstractly as `dec` (it returns `none` on undecodable
input); a missing value or a non-string/empty value yields `none` before
`dec` is ever consulted. -/
def b64_decode_maybe (dec : Str → Option Str) (value : Option Str) : Option Str :=
  match value with
  | some v => if v = [] then none else dec v
  | none => none

/-- One entry of a `/ls` response (agent_server.py:153-160).  The `size` of a
directory entry and all `mtime` values depend on the underlying filesystem
state; the model stores an `mtime` per file and reports directories with
size 0. -/
structure LsEntry where
  name : Seg
  is_dir : Bool
  size : Nat
  mtime : Nat
deriving DecidableEq, Repr

/-- One regular file of the modelled filesystem. -/
structure FSFile where
  path : FsPath
  content : Str
  mtime : Nat
deriving DecidableEq, Repr

/-- The filesystem state under the agent's base directory: regular files and
explicitly created directories (the resolved base directory itself always
exists and is not listed in `dirs`). -/
structure FS where
  files : List FSFile
  dirs : List FsPath
deriving DecidableEq, Repr

/-- The sort order of `/ls` (agent_server.py:151): Python's
`sorted(..., key=lambda x: (not x.is_dir(), x.name))` — directories first,
then lexicographically by name. -/
def entLe (a b : LsEntry) : Prop :=
  toLex (!a.is_dir, a.name) ≤ toLex (!b.is_dir, b.name)

instance : DecidableRel entLe :=
  fun a b => inferInstanceAs (Decidable (toLex (!a.is_dir, a.name) ≤ toLex (!b.is_dir, b.name)))

instance : IsTotal LsEntry entLe :=
  ⟨fun a b => le_total (toLex (!a.is_dir, a.name)) (toLex (!b.is_dir, b.name))⟩

instance : IsTrans LsEntry entLe :=
  ⟨fun _ _ _ h h2 => le_trans h h2⟩

/-- If `p = d ++ [n]` (that is, `p` is a direct child of directory `d`),
the child's name `n`. -/
def childName (d p : FsPath) : Option Seg :=
  if d.isPrefixOf p then
    match p.drop d.length with
    | [n] => some n
    | _ => none
  else none

/-- The unsorted result of `target.iterdir()` rendered to `/ls` entries:
direct subdirectories (as `is_dir` entries) and direct files (with their
sizes and mtimes). -/
def childEntries (fs : FS) (d : FsPath) : List LsEntry :=
  (fs.dirs.filterMap fun p => (childName d p).map fun n => ⟨n, true, 0, 0⟩)
    ++ (fs.files.filterMap fun f =>
          (childName d f.path).map fun n => ⟨n, false, f.content.length, f.mtime⟩)

/-- The entry list `/ls` responds with: the children of `d` sorted
directories-first then lexicographically by name (agent_server.py:150-161). -/
def ls_entries (fs : FS) (d : FsPath) : List LsEntry :=
  List.insertionSort entLe (childEntries fs d)

/-- `target.exists() and target.is_dir()` over the model: the resolved base
directory always exists, every other directory must have been created. -/
def dirExists (rbase : FsPath) (fs : FS) (p : FsPath) : Bool :=
  p == rbase || fs.dirs.contains p

/-- Linear scan for the file stored at a path. -/
def findFile : List FSFile → FsPath → Option FSFile
  | [], _ => none
  | f :: rest, p => if f.path = p then some f else findFile rest p

/-- The file stored at `p`, if any. -/
def fileLookup (fs : FS) (p : FsPath) : Option FSFile :=
  findFile fs.files p

/-- `target.exists() and target.is_file()` over the model. -/
def fileExists (fs : FS) (p : FsPath) : Bool :=
  (fileLookup fs p).isSome

/-- The would-be parents created by `target.parent.mkdir(parents=True,
exist_ok=True)`: every proper prefix of the target (the empty prefix — the
base directory itself — is kept implicit and never stored). -/
def parentDirs (p : FsPath) : List FsPath :=
  (List.range p.length).map (fun i => p.take i)

/-- `target.write_bytes(data)` after `mkdir(parents=True)`: replace any file
at `target` with the new content (truncating semantics) and record the
created parent directories. -/
def write_fs (fs : FS) (target : FsPath) (data : Str) : FS :=
  ⟨⟨target, data, 0⟩ :: fs.files.filter (fun f => decide (f.path ≠ target)),
   fs.dirs ++ (parentDirs target).filter
     (fun d => !(fs.dirs.contains d) && decide (d ≠ ([] : FsPath)))⟩

/-- Response of `GET /ls` (agent_server.py:141-163). -/
inductive LsResult
  | badRequest
  | notFound
  | notADirectory
  | ok (entries : List LsEntry)
deriving DecidableEq, Repr

/-- The `GET /ls` handler (agent_server.py:141-163): default the raw path to
`"."`, resolve it, 404 when the target does not exist, 400 when it is not a
directory, otherwise the sorted entries. -/
def ls_handler (canon : FsPath → FsPath) (baseDir : FsPath) (fs : FS) (raw : Str) :
    LsResult :=
  let raw' := if raw = [] then ['.'] else raw
  match resolve_path canon baseDir raw' with
  | .pathEscape => .badRequest
  | .ok target =>
    if !(dirExists (canon baseDir) fs target || fileExists fs target) then .notFound
    else if !(dirExists (canon baseDir) fs target) then .notADirectory
    else .ok (ls_entries fs target)

/-- Response of `GET /read` (agent_server.py:165-178). -/
inductive ReadResult
  | badRequest
  | notFound
  | ok (content : Str)
deriving DecidableEq, Repr

/-- The `GET /read` handler (agent_server.py:165-178): resolve, 404 unless
the target is an existing regular file, otherwise its bytes (transported
base64-encoded; the model carries the bytes themselves). -/
def read_handler (canon : FsPath → FsPath) (baseDir : FsPath) (fs : FS) (raw : Str) :
    ReadResult :=
  match resolve_path canon baseDir raw with
  | .pathEscape => .badRequest
  | .ok target =>
    match fileLookup fs target with
    | some f => .ok f.content
    | none => .notFound

/-- Response of `POST /write` and `POST /upload` (agent_server.py:213-247). -/
inductive WriteResult
  | missingPath
  | badContent
  | pathEscape
  | ok (bytes : Nat)
deriving DecidableEq, Repr

/-- The `POST /write` handler (agent_server.py:232-247): require a non-empty
`path`, require a decodable `content_b64` (400 `missing/invalid content_b64`
otherwise, before any filesystem access), then resolve and write. -/
def post_write (canon : FsPath → FsPath) (baseDir : FsPath) (fs : FS)
    (payload : List (Str × Str)) (dec : Str → Option Str) : WriteResult × FS :=
  match lookupKV payload "path".data with
  | none => (.missingPath, fs)
  | some raw =>
    if raw = [] then (.missingPath, fs)
    else
      match b64_decode_maybe dec (lookupKV payload "content_b64".data) with
      | none => (.badContent, fs)
      | some data =>
        match resolve_path canon baseDir raw with
        | .pathEscape => (.pathEscape, fs)
        | .ok target => (.ok data.length, write_fs fs target data)

/-- The `POST /upload` handler (agent_server.py:215-230): require a non-empty
`path`, resolve it, then write whatever `content_b64` decodes to — a missing
or undecodable `content_b64` silently degrades to the empty byte string. -/
def post_upload (canon : FsPath → FsPath) (baseDir : FsPath) (fs : FS)
    (payload : List (Str × Str)) (dec : Str → Option Str) : WriteResult × FS :=
  match lookupKV payload "path".data with
  | none => (.missingPath, fs)
  | some raw =>
    if raw = [] then (.missingPath, fs)
    else
      match resolve_path canon baseDir raw with
      | .pathEscape => (.pathEscape, fs)
      | .ok target =>
        let data := (b64_decode_maybe dec (lookupKV payload "content_b64".data)).getD []
        (.ok data.length, write_fs fs target data)

/-- `_pick_shell_cmd(cmd)` (agent_server.py:30-36): the argument vector the
command text is executed with — always a shell invocation whose final
argument is the command text itself. -/
def pick_shell_cmd (isWindows hasBash : Bool) (cmd : Str) : List Str :=
  if isWindows then ["powershell".data, "-NoProfile".data, "-Command".data, cmd]
  else if hasBash then ["/bin/bash".data, "-lc".data, cmd]
  else ["/bin/sh".data, "-lc".data, cmd]

/-- The environment `{**os.environ, **env_extra}` passed to the child process
(agent_server.py:287): start from the ambient environment and apply each
override in order, Python-dict style. -/
def merged_env (ambient extra : List (Str × Str)) : List (Str × Str) :=
  dict_merge ambient extra

/-- Abstraction of what `subprocess.run` did for one `/exec` request:
it completed in time, it hit `subprocess.TimeoutExpired` (whose `stdout` and
`stderr` attributes may be `None`), or launching failed with some other
exception. -/
inductive RunOutcome
  | completed (exit_code : Int) (stdout stderr : Str)
  | timedOut (stdout stderr : Option Str)
  | launchFailed (msg : Str)
deriving DecidableEq, Repr

/-- The JSON body of an `/exec` response. -/
structure ExecResp where
  ok : Bool
  error : Option Str
  exit_code : Option Int
  stdout : Option Str
  stderr : Option Str
  duration_ms : Nat
deriving DecidableEq, Repr

/-- How `POST /exec` reports the run outcome (agent_server.py:282-317):
HTTP status paired with the JSON body.  A timeout is HTTP 200 (a successful
call) with `ok=false`, `error="timeout"` and the partial output captured so
far; only a launch failure becomes HTTP 500. -/
def exec_response (duration : Nat) : RunOutcome → Nat × ExecResp
  | .completed c o e => (200, ⟨true, none, some c, some o, some e, duration⟩)
  | .timedOut o e =>
    (200, ⟨false, some "timeout".data, none, some (o.getD []), some (e.getD []), duration⟩)
  | .launchFailed m => (500, ⟨false, some m, none, none, none, duration⟩)

/-- Status of a background job. -/
inductive JobStatus
  | running
  | done
deriving DecidableEq, Repr

/-- Modelled from the spec: one record of the JobStore (spec §3, §4.3) — the
`/async_exec` / `/async_status` job subsystem is not part of the sources
(only its client, `gdriscv_gui.py:40-46`, is), so the Job record is taken
from the spec's data model: status, exit code (absent while running), and
append-only output streams (kept as lines, since the status query serves
line tails). -/
structure Job where
  status : JobStatus
  exit_code : Option Int
  stdout_lines : List Str
  stderr_lines : List Str
deriving DecidableEq, Repr

/-- Modelled from the spec: the JobStore (spec §4.3) — a registry of jobs by
id, plus the allocator for fresh ids. -/
structure JobStore where
  next_id : Nat
  jobs : List (Nat × Job)
deriving DecidableEq, Repr

/-- Modelled from the spec: `submit(CommandRequest) -> JobId` (spec §4.3)
returns immediately after allocating a Job record in state `running`; the
actual command runs on an independent worker and only later mutates the
record, so submission itself just allocates. -/
def submit_job (st : JobStore) : Nat × JobStore :=
  (st.next_id, ⟨st.next_id + 1, (st.next_id, ⟨.running, none, [], []⟩) :: st.jobs⟩)

/-- The last `n` lines of a stream, computed at query time. -/
def tail_lines (n : Nat) (ls : List Str) : List Str :=
  ls.drop (ls.length - n)

/-- Result of a `job-status` query. -/
inductive JobStatusResult
  | notFound
  | ok (status : JobStatus) (exit_code : Option Int) (stdout_tail stderr_tail : List Str)
deriving DecidableEq, Repr

/-- Modelled from the spec: `status(JobId, tailLines)` (spec §4.3) — `NotFound`
for an unknown id, otherwise the job's status, exit code and output tails. -/
def job_status (st : JobStore) (id : Nat) (tail : Nat) : JobStatusResult :=
  match lookupKV st.jobs id with
  | none => .notFound
  | some j => .ok j.status j.exit_code (tail_lines tail j.stdout_lines)
      (tail_lines tail j.stderr_lines)

/-- Modelled from the spec: the supervising worker driving a job to `done`
with its exit code (spec §4.3: status transitions running→done exactly once
and exit_code is set iff status is done). -/
def finish_job (st : JobStore) (id : Nat) (code : Int) : JobStore :=
  ⟨st.next_id,
   st.jobs.map (fun p =>
     if p.1 = id then (p.1, ⟨.done, some code, p.2.stdout_lines, p.2.stderr_lines⟩) else p)⟩

/-- Modelled from the spec: one terminal session pane (spec §3, §4.4) — the
`/tmux/*` endpoints are not part of the sources (only their client,
`gdriscv_gui.py:48-62`, is), so the session carries the dimensions it was
created with. -/
structure TermSession where
  cols : Nat
  rows : Nat
deriving DecidableEq, Repr

/-- Modelled from the spec: the SessionRegistry (spec §4.4) — live panes by
caller-chosen name. -/
structure SessionRegistry where
  panes : List (Str × TermSession)
deriving DecidableEq, Repr

/-- Result of a terminal-session operation. -/
inductive SessResult
  | ok
  | notFound
deriving DecidableEq, Repr

/-- Modelled from the spec: `create(name, cols, rows)` (spec §4.4) destroys
any existing pane with that name (kill-then-create, not an error on
collision) and allocates a fresh pane with the given dimensions. -/
def session_create (st : SessionRegistry) (name : Str) (cols rows : Nat) :
    SessResult × SessionRegistry :=
  (.ok, ⟨(name, ⟨cols, rows⟩) :: st.panes.filter (fun p => decide (p.1 ≠ name))⟩)

/-- Modelled from the spec: `send(name, bytes, withEnter)` (spec §4.4)
injects keystrokes into the pane and fails with `NotFound` if the name has
no live pane. -/
def session_send (st : SessionRegistry) (name : Str) (_keys : Str) (_withEnter : Bool) :
    SessResult :=
  match lookupKV st.panes name with
  | some _ => .ok
  | none => .notFound

/-- Modelled from the spec: `kill(name)` (spec §4.4) tears the pane down; on
a nonexistent name it is a no-op, not an error. -/
def session_kill (st : SessionRegistry) (name : Str) : SessResult × SessionRegistry :=
  (.ok, ⟨st.panes.filter (fun p => decide (p.1 ≠ name))⟩)

/-- The base64 decoder restricted to the inputs of the write-then-read
scenario: `aGk=` is the encoding of `hi`. -/
def dec_c6 : Str → Option Str :=
  fun s => if s = "aGk=".data then some "hi".data else none

/-- The empty filesystem of the write-then-read scenario. -/
def fs_c6 : FS := ⟨[], []⟩

/-- The `POST /write` call of the write-then-read scenario:
`write-file("a.txt", "hi")` against the empty root. -/
def wr_c6 : WriteResult × FS :=
  post_write lexCanon [] fs_c6
    [("path".data, "a.txt".data), ("content_b64".data, "aGk=".data)] dec_c6

/-- A small filesystem exercising the `/ls` sort order: two files and one
subdirectory directly under the base. -/
def fs_c7 : FS :=
  ⟨[⟨["b".data], "xy".data, 5⟩, ⟨["a".data], "z".data, 7⟩], [["c".data]]⟩

/-- A filesystem with one pre-existing file, to exercise the truncating
behaviour of `POST /upload`. -/
def fs_c10 : FS := ⟨[⟨["a.txt".data], "old".data, 3⟩], []⟩

/-! ## Theorems -/

/-- The step of `lexCanon` never introduces a `..` segment. -/
theorem lexCanon_foldl_no_dotdot (p : FsPath) (acc : FsPath)
    (hacc : ['.', '.'] ∉ acc) :
    ['.', '.'] ∉ p.foldl
      (fun acc seg => if seg = ['.', '.'] then acc.dropLast else acc ++ [seg]) acc := by
  induction p generalizing acc with
  | nil => exact hacc
  | cons seg rest ih =>
    simp only [List.foldl_cons]
    by_cases hseg : seg = ['.', '.']
    · rw [if_pos hseg]
      exact ih _ (fun hmem => hacc ((List.dropLast_sublist acc).mem hmem))
    · rw [if_neg hseg]
      refine ih _ (fun hmem => ?_)
      rcases List.mem_append.mp hmem with hmem | hmem
      · exact hacc hmem
      · exact hseg (List.mem_singleton.mp hmem).symm

/-- `lexCanon` leaves a `..`-free path unchanged. -/
theorem lexCanon_clean (p : FsPath) (hp : ∀ s ∈ p, s ≠ ['.', '.']) :
    lexCanon p = p := by
  unfold lexCanon
  suffices h : ∀ (q : FsPath) (acc : FsPath), (∀ s ∈ q, s ≠ ['.', '.']) →
      q.foldl (fun acc seg => if seg = ['.', '.'] then acc.dropLast else acc ++ [seg]) acc
        = acc ++ q by
    simpa using h p [] hp
  intro q
  induction q with
  | nil => intro acc _; simp
  | cons seg rest ih =>
    intro acc hq
    have hseg : seg ≠ ['.', '.'] := hq seg (List.mem_cons_self seg rest)
    simp only [List.foldl_cons, if_neg hseg]
    rw [ih (acc ++ [seg]) (fun s hs => hq s (List.mem_cons_of_mem seg hs))]
    simp

/-- `lexCanon` is idempotent, as OS path resolution is. -/
theorem lexCanon_idem : ∀ p, lexCanon (lexCanon p) = lexCanon p := by
  intro p
  apply lexCanon_clean
  intro s hs hdot
  subst hdot
  exact lexCanon_foldl_no_dotdot p [] (by simp) hs

/-- Claim C1: for every caller-supplied raw path whose canonicalized target
is not a descendant of the configured root — with canonicalization (the
model of `Path.resolve()`, which also chases symlinks) applied to both the
root and the target, and assumed idempotent as OS resolution is —
`_resolve_path` fails with the `PathEscape` error (`ValueError`,
agent_server.py:120-126 via `_is_within`, agent_server.py:22-27). -/
theorem c1_resolve_path_escape (canon : FsPath → FsPath) (baseDir : FsPath) (raw : Str)
    (hc : ∀ p, canon (canon p) = canon p)
    (h : ((canon baseDir).isPrefixOf
        (canon (canon baseDir ++ splitSegs (lstripSlash raw)))) = false) :
    resolve_path canon baseDir raw = .pathEscape := by
  have hw : is_within canon (canon (canon baseDir ++ splitSegs (lstripSlash raw)))
      (canon baseDir) = false := by
    unfold is_within
    rw [hc, hc]
    exact h
  simp only [resolve_path, hw, Bool.false_eq_true, if_false]

/-- Claim C1 witness: escaping `/home/user` through `../../etc/passwd` is
rejected. -/
theorem c1_witness :
    resolve_path lexCanon ["home".data, "user".data] "../../etc/passwd".data
      = .pathEscape :=
  c1_resolve_path_escape lexCanon ["home".data, "user".data] "../../etc/passwd".data
    lexCanon_idem (by decide)

/-- Claim C9: whenever `_resolve_path` returns a result at all, that result
lies inside (or equals) the canonicalized base directory (its segments
extend the base's); and leading slashes are stripped first, so the absolute
input `/etc/passwd` is reinterpreted as the relative path `etc/passwd`
under the base directory (agent_server.py:120-126). -/
theorem c9_resolve_result_inside :
    (∀ (canon : FsPath → FsPath) (baseDir : FsPath) (raw : Str) (t : FsPath),
        (∀ p, canon (canon p) = canon p) →
        resolve_path canon baseDir raw = .ok t →
        (canon baseDir).isPrefixOf t = true)
    ∧ lstripSlash "/etc/passwd".data = "etc/passwd".data
    ∧ resolve_path lexCanon [] "/etc/passwd".data = .ok ["etc".data, "passwd".data] := by
  refine ⟨?_, by decide, by decide⟩
  intro canon baseDir raw t hc h
  simp only [resolve_path] at h
  by_cases hw : is_within canon (canon (canon baseDir ++ splitSegs (lstripSlash raw)))
      (canon baseDir) = true
  · rw [if_pos hw] at h
    cases h
    unfold is_within at hw
    rw [hc, hc] at hw
    exact hw
  · rw [if_neg hw] at h
    cases h

/-- Claim C9 witness: resolving `x` under base `r` yields `r/x`, which
extends the base. -/
theorem c9_witness : (lexCanon ["r".data]).isPrefixOf ["r".data, "x".data] = true :=
  c9_resolve_result_inside.1 lexCanon ["r".data] "x".data ["r".data, "x".data]
    lexCanon_idem (by decide)

/-- Claim C4: when `/exec` hits the deadline (`subprocess.TimeoutExpired`),
the handler responds with HTTP 200 — a successful call, never a
transport-level failure — whose body is the distinguished `timeout` outcome
(`ok=false`, `error="timeout"`) carrying whatever stdout/stderr had been
captured up to that point (agent_server.py:303-314). -/
theorem c4_timeout_is_well_formed_result (d : Nat) (o e : Option Str) :
    (exec_response d (.timedOut o e)).1 = 200
    ∧ (exec_response d (.timedOut o e)).2.ok = false
    ∧ (exec_response d (.timedOut o e)).2.error = some "timeout".data
    ∧ (exec_response d (.timedOut o e)).2.stdout = some (o.getD [])
    ∧ (exec_response d (.timedOut o e)).2.stderr = some (e.getD []) :=
  ⟨rfl, rfl, rfl, rfl, rfl⟩

/-- Claim C6: on an empty root `list-directory(".")` returns no entries;
after `write-file("a.txt", "hi")` succeeds (reporting 2 bytes),
`list-directory(".")` returns exactly the entry `a.txt` (not a directory,
size 2) and `read-file("a.txt")` returns the bytes `hi` that were written
(agent_server.py:141-163, 165-178, 232-247). -/
theorem c6_write_read_roundtrip :
    ls_handler lexCanon [] fs_c6 ['.'] = .ok []
    ∧ wr_c6.1 = .ok 2
    ∧ ls_handler lexCanon [] wr_c6.2 ['.'] = .ok [⟨"a.txt".data, false, 2, 0⟩]
    ∧ read_handler lexCanon [] wr_c6.2 "a.txt".data = .ok "hi".data := by
  decide

/-- Claim C7: for every filesystem state and directory, the `/ls` entry list
is sorted directories-first and then lexicographically by name, it contains
exactly the directory's children (each entry carrying name, is_dir, size and
mtime), and every successful `/ls` response is such a list
(agent_server.py:150-161). -/
theorem c7_ls_sorted :
    (∀ (fs : FS) (d : FsPath),
        List.Sorted entLe (ls_entries fs d)
        ∧ ∀ e, e ∈ ls_entries fs d ↔ e ∈ childEntries fs d)
    ∧ (∀ (canon : FsPath → FsPath) (baseDir : FsPath) (fs : FS) (raw : Str)
          (es : List LsEntry),
        ls_handler canon baseDir fs raw = .ok es → ∃ d, es = ls_entries fs d) := by
  constructor
  · intro fs d
    exact ⟨List.sorted_insertionSort entLe _,
      fun e => (List.perm_insertionSort entLe _).mem_iff⟩
  · intro canon baseDir fs raw es h
    simp only [ls_handler] at h
    cases hr : resolve_path canon baseDir (if raw = [] then ['.'] else raw) with
    | pathEscape =>
      rw [hr] at h
      cases h
    | ok target =>
      rw [hr] at h
      have h' : (if (!(dirExists (canon baseDir) fs target || fileExists fs target)) = true
          then LsResult.notFound
          else if (!dirExists (canon baseDir) fs target) = true then LsResult.notADirectory
          else LsResult.ok (ls_entries fs target)) = LsResult.ok es := h
      by_cases h1 : (!(dirExists (canon baseDir) fs target || fileExists fs target)) = true
      · rw [if_pos h1] at h'
        cases h'
      · rw [if_neg h1] at h'
        by_cases h2 : (!dirExists (canon baseDir) fs target) = true
        · rw [if_pos h2] at h'
          cases h'
        · rw [if_neg h2] at h'
          injection h' with h'
          exact ⟨target, h'.symm⟩

/-- Claim C7 witness: listing the base of a filesystem holding files `a`,
`b` and directory `c` yields a sorted entry list, through the handler. -/
theorem c7_witness :
    List.Sorted entLe (ls_entries fs_c7 [])
    ∧ (∃ d, ls_entries fs_c7 [] = ls_entries fs_c7 d) :=
  ⟨(c7_ls_sorted.1 fs_c7 []).1,
   c7_ls_sorted.2 lexCanon [] fs_c7 ['.'] (ls_entries fs_c7 []) (by decide)⟩

/-- Dict lookup across a Python-dict overwrite of key `k`: the overwritten
key reads back the new value when the map contained `k`. -/
theorem lookupKV_replace_eq {κ ν : Type} [DecidableEq κ] (m : List (κ × ν)) (k : κ)
    (v : ν) (hmem : m.any (fun p => decide (p.1 = k)) = true) :
    lookupKV (m.map (fun p => if p.1 = k then (p.1, v) else p)) k = some v := by
  induction m with
  | nil => simp at hmem
  | cons p rest ih =>
    by_cases hp : p.1 = k
    · simp [lookupKV, hp]
    · have hmem' : rest.any (fun p => decide (p.1 = k)) = true := by
        simpa [hp] using hmem
      simp [lookupKV, hp, Ne.symm hp, ih hmem']

/-- Dict lookup of a key other than the overwritten one is unchanged by a
Python-dict overwrite. -/
theorem lookupKV_replace_ne {κ ν : Type} [DecidableEq κ] (m : List (κ × ν)) (k q : κ)
    (v : ν) (hq : q ≠ k) :
    lookupKV (m.map (fun p => if p.1 = k then (p.1, v) else p)) q
      = lookupKV m q := by
  induction m with
  | nil => rfl
  | cons p rest ih =>
    by_cases hp : p.1 = k
    · have hqp : q ≠ p.1 := fun h => hq (h.trans hp)
      simp [lookupKV, hp, hqp, hq, ih]
    · by_cases hqp : q = p.1
      · simp [lookupKV, hp, hqp]
      · simp [lookupKV, hp, hqp, ih]

/-- Dict lookup after appending a genuinely new key. -/
theorem lookupKV_append_new {κ ν : Type} [DecidableEq κ] (m : List (κ × ν)) (k q : κ)
    (v : ν) (hmem : m.any (fun p => decide (p.1 = k)) = false) :
    lookupKV (m ++ [(k, v)]) q = if q = k then some v else lookupKV m q := by
  induction m with
  | nil =>
    by_cases hq : q = k <;> simp [lookupKV, hq]
  | cons p rest ih =>
    have hp : ¬(p.1 = k) := by
      intro hpk
      simp [hpk] at hmem
    have hmem' : rest.any (fun p => decide (p.1 = k)) = false := by
      simpa [hp] using hmem
    by_cases hqp : q = p.1
    · have hqk : ¬(q = k) := fun h => hp (hqp.symm.trans h)
      simp [lookupKV, hqp, hqk, hp]
    · simp [lookupKV, hqp, ih hmem']

/-- Dict lookup through a Python-dict insertion `out[k] = v`. -/
theorem lookupKV_dictInsert {κ ν : Type} [DecidableEq κ] (m : List (κ × ν)) (k q : κ)
    (v : ν) :
    lookupKV (dictInsert m k v) q = if q = k then some v else lookupKV m q := by
  unfold dictInsert
  by_cases hmem : m.any (fun p => decide (p.1 = k)) = true
  · rw [if_pos hmem]
    by_cases hq : q = k
    · subst hq
      simp [lookupKV_replace_eq m q v hmem]
    · simp [lookupKV_replace_ne m k q v hq, hq]
  · rw [if_neg hmem]
    exact lookupKV_append_new m k q v (Bool.eq_false_iff.mpr hmem)

/-- No entry, no lookup result. -/
theorem lookupKV_eq_none_of_not_mem_keys {κ ν : Type} [DecidableEq κ]
    (l : List (κ × ν)) (k : κ) (h : k ∉ l.map Prod.fst) :
    lookupKV l k = none := by
  induction l with
  | nil => rfl
  | cons p rest ih =>
    rw [List.map_cons, List.mem_cons] at h
    push_neg at h
    simp [lookupKV, h.1, ih h.2]

/-- A Python dict merge `{**base, **extra}` looks up to the override when the
key is bound in `extra` (whose keys are unique, as a dict's are) and to the
base value otherwise. -/
theorem lookupKV_dict_merge {κ ν : Type} [DecidableEq κ]
    (base extra : List (κ × ν)) (q : κ)
    (h : (extra.map Prod.fst).Nodup) :
    lookupKV (dict_merge base extra) q
      = (lookupKV extra q).or (lookupKV base q) := by
  induction extra generalizing base with
  | nil => simp [dict_merge, lookupKV]
  | cons kv rest ih =>
    obtain ⟨k0, v0⟩ := kv
    rw [List.map_cons, List.nodup_cons] at h
    obtain ⟨hk0, hrest⟩ := h
    have hstep : dict_merge base ((k0, v0) :: rest)
        = dict_merge (dictInsert base k0 v0) rest := rfl
    rw [hstep, ih _ hrest, lookupKV_dictInsert]
    by_cases hq : q = k0
    · subst hq
      rw [lookupKV_eq_none_of_not_mem_keys rest q hk0]
      simp [lookupKV]
    · simp [lookupKV, hq]

/-- Claim C8: `/exec` runs the command text inside a shell — the final
argument of the spawned argument vector is the command text itself, so it
may contain pipes and redirection (`_pick_shell_cmd`, agent_server.py:30-36)
— and the request's environment overrides are merged over the ambient
environment, not replacing it: an overridden key looks up to the override
and every other key keeps its ambient value (agent_server.py:287). -/
theorem c8_shell_and_env_merge (amb extra : List (Str × Str)) (q cmd : Str)
    (isWindows hasBash : Bool)
    (h : (extra.map Prod.fst).Nodup) :
    lookupKV (merged_env amb extra) q
      = (lookupKV extra q).or (lookupKV amb q)
    ∧ (pick_shell_cmd isWindows hasBash cmd).getLast? = some cmd := by
  refine ⟨lookupKV_dict_merge amb extra q h, ?_⟩
  cases isWindows <;> cases hasBash <;> rfl

/-- Claim C8 witness: overriding `HOME` over an ambient environment holding
`PATH` and `HOME`. -/
theorem c8_witness :
    lookupKV
        (merged_env [("PATH".data, "/usr/bin".data), ("HOME".data, "/root".data)]
          [("HOME".data, "/tmp".data)]) "HOME".data
      = (lookupKV [("HOME".data, "/tmp".data)] "HOME".data).or
          (lookupKV [("PATH".data, "/usr/bin".data), ("HOME".data, "/root".data)]
            "HOME".data)
    ∧ (pick_shell_cmd false true "echo hi | wc -l".data).getLast?
        = some "echo hi | wc -l".data :=
  c8_shell_and_env_merge [("PATH".data, "/usr/bin".data), ("HOME".data, "/root".data)]
    [("HOME".data, "/tmp".data)] "HOME".data "echo hi | wc -l".data false true
    (by decide)

/-- Claim C2: submitting a job immediately allocates a fresh Job record in
state `running` (no exit code, empty output), whose id a later `job-status`
query resolves; `job-status` returns the stored status, exit code and output
tails, and fails with `NotFound` for an unknown id (spec §4.3; client calls
in gdriscv_gui.py:40-46). -/
theorem c2_submit_job_and_status (st : JobStore) (n : Nat) :
    job_status (submit_job st).2 (submit_job st).1 n = .ok .running none [] []
    ∧ (∀ id, lookupKV st.jobs id = none → job_status st id n = .notFound)
    ∧ (∀ id j, lookupKV st.jobs id = some j →
        job_status st id n
          = .ok j.status j.exit_code (tail_lines n j.stdout_lines)
              (tail_lines n j.stderr_lines)) := by
  refine ⟨?_, ?_, ?_⟩
  · simp [submit_job, job_status, lookupKV, tail_lines]
  · intro id h
    simp [job_status, h]
  · intro id j h
    simp [job_status, h]

/-- Claim C2 witness: a submit against the empty store, and a status query
for an unknown id. -/
theorem c2_witness :
    job_status (submit_job ⟨0, []⟩).2 (submit_job ⟨0, []⟩).1 5 = .ok .running none [] []
    ∧ job_status ⟨0, []⟩ 7 5 = .notFound :=
  ⟨(c2_submit_job_and_status ⟨0, []⟩ 5).1,
   (c2_submit_job_and_status ⟨0, []⟩ 5).2.1 7 (by decide)⟩

/-- Claim C3: `session-create` succeeds even when a pane with that name
already exists — the second call silently destroys and replaces the first
(afterwards the name maps to the new dimensions and exactly one pane carries
it) — and `session-send` on a name with no live pane fails with `NotFound`
(spec §4.4; client calls in gdriscv_gui.py:48-62). -/
theorem c3_session_recreate_and_send (st : SessionRegistry) (name : Str)
    (c1 r1 c2 r2 : Nat) (keys : Str) (enter : Bool) :
    (session_create st name c1 r1).1 = .ok
    ∧ (session_create (session_create st name c1 r1).2 name c2 r2).1 = .ok
    ∧ lookupKV (session_create (session_create st name c1 r1).2 name c2 r2).2.panes
        name = some ⟨c2, r2⟩
    ∧ ((session_create (session_create st name c1 r1).2 name c2 r2).2.panes.filter
        (fun p => decide (p.1 = name))).length = 1
    ∧ (∀ (st' : SessionRegistry) (n' : Str), lookupKV st'.panes n' = none →
        session_send st' n' keys enter = .notFound) := by
  refine ⟨rfl, rfl, ?_, ?_, ?_⟩
  · simp [session_create, lookupKV]
  · simp only [session_create, List.filter_cons]
    simp [List.filter_filter]
  · intro st' n' h
    simp [session_send, h]

/-- Claim C3 witness: `session-create("t",80,24)` twice against the empty
registry, and `session-send("nonexistent", "x")`. -/
theorem c3_witness :
    (session_create ⟨[]⟩ "t".data 80 24).1 = .ok
    ∧ (session_create (session_create ⟨[]⟩ "t".data 80 24).2 "t".data 80 24).1 = .ok
    ∧ session_send ⟨[]⟩ "nonexistent".data "x".data true = .notFound := by
  obtain ⟨h1, h2, -, -, h5⟩ :=
    c3_session_recreate_and_send ⟨[]⟩ "t".data 80 24 80 24 "x".data true
  exact ⟨h1, h2, h5 ⟨[]⟩ "nonexistent".data (by decide)⟩

/-- Claim C5 counterexample: the body `cmd=pwd` is URL-query-encoded text —
the query-string decoder itself maps it to the key-value map
`[(cmd, pwd)]` — yet `_parse_body_as_object` returns the empty map, because
the query-string fallback additionally requires an `&` in the text
(agent_server.py:73-75); `json.loads("cmd=pwd")` fails, hence `none`. -/
theorem c5_counterexample :
    parse_body_as_object none "cmd=pwd".data = []
    ∧ parse_qs_last "cmd=pwd".data = [("cmd".data, "pwd".data)] := by
  decide

/-- Claim C5 (amended): the parser accepts the structured encoding (a JSON
object decodes to its key-value map) and brace-delimited
`{key=value, key2=value2}` text; URL-query-encoded text is accepted as a
fallback only when it contains both `=` and `&` (at least two parameters) —
a single-pair query string yields the empty map
(`_parse_body_as_object`, agent_server.py:39-77). -/
theorem c5_body_parse_formats :
    (∀ (m : List (Str × Str)) (body : Str), strip body ≠ [] →
        parse_body_as_object (some m) body = m)
    ∧ (∀ body : Str, strip body ≠ [] →
        (headIs lbraceChar (strip body) && lastIs rbraceChar (strip body)
          && (strip body).contains '=') = true →
        parse_body_as_object none body = parse_java_map (strip body))
    ∧ (∀ body : Str, strip body ≠ [] →
        (headIs lbraceChar (strip body) && lastIs rbraceChar (strip body)
          && (strip body).contains '=') = false →
        ((strip body).contains '=' && (strip body).contains '&') = true →
        parse_body_as_object none body = parse_qs_last (strip body))
    ∧ parse_body_as_object none "\x7bcmd=pwd, timeout_sec=30\x7d".data
        = [("cmd".data, "pwd".data), ("timeout_sec".data, "30".data)]
    ∧ parse_body_as_object none "cmd=pwd&timeout_sec=30".data
        = [("cmd".data, "pwd".data), ("timeout_sec".data, "30".data)] := by
  refine ⟨?_, ?_, ?_, by decide, by decide⟩
  · intro m body hne
    simp only [parse_body_as_object]
    rw [if_neg hne]
  · intro body hne hbr
    simp only [parse_body_as_object]
    rw [if_neg hne, if_pos hbr]
  · intro body hne hbr hqs
    have hbr' : ¬((headIs lbraceChar (strip body) && lastIs rbraceChar (strip body)
        && (strip body).contains '=') = true) := by
      rw [hbr]
      exact Bool.false_ne_true
    simp only [parse_body_as_object]
    rw [if_neg hne, if_neg hbr', if_pos hqs]

/-- Claim C5 witness: a structured (JSON-dict) body decodes to its map. -/
theorem c5_witness :
    parse_body_as_object (some [("cmd".data, "pwd".data)]) "x".data
      = [("cmd".data, "pwd".data)] :=
  c5_body_parse_formats.1 [("cmd".data, "pwd".data)] "x".data (by decide)

/-- Claim C10: on a payload whose `content_b64` is missing or undecodable
but whose `path` is present and resolves, `POST /write` fails with the
BadRequest `missing/invalid content_b64` and leaves the filesystem unchanged
(the decode is checked before any filesystem access,
agent_server.py:239-241), whereas `POST /upload` succeeds, reports 0 bytes
written, and truncates the file at that path to empty
(agent_server.py:224-228). -/
theorem c10_write_upload_divergence (canon : FsPath → FsPath) (baseDir : FsPath)
    (fs : FS) (payload : List (Str × Str)) (dec : Str → Option Str) (raw : Str)
    (target : FsPath)
    (hpath : lookupKV payload "path".data = some raw)
    (hraw : raw ≠ [])
    (hcontent : b64_decode_maybe dec (lookupKV payload "content_b64".data) = none)
    (hres : resolve_path canon baseDir raw = .ok target) :
    post_write canon baseDir fs payload dec = (.badContent, fs)
    ∧ post_upload canon baseDir fs payload dec = (.ok 0, write_fs fs target [])
    ∧ fileLookup (post_upload canon baseDir fs payload dec).2 target
        = some ⟨target, [], 0⟩ := by
  have hu : post_upload canon baseDir fs payload dec
      = (.ok 0, write_fs fs target []) := by
    simp [post_upload, hpath, hraw, hres, hcontent]
  refine ⟨?_, hu, ?_⟩
  · simp [post_write, hpath, hraw, hcontent]
  · rw [hu]
    simp [write_fs, fileLookup, findFile]

/-- Claim C10 witness: the divergence on the concrete payload
`{path: "a.txt"}` (no `content_b64`) against a filesystem whose `a.txt`
holds `old`. -/
theorem c10_witness :
    post_write lexCanon [] fs_c10 [("path".data, "a.txt".data)] (fun _ => none)
      = (.badContent, fs_c10)
    ∧ post_upload lexCanon [] fs_c10 [("path".data, "a.txt".data)] (fun _ => none)
      = (.ok 0, write_fs fs_c10 ["a.txt".data] [])
    ∧ fileLookup (post_upload lexCanon [] fs_c10 [("path".data, "a.txt".data)]
        (fun _ => none)).2 ["a.txt".data] = some ⟨["a.txt".data], [], 0⟩ :=
  c10_write_upload_divergence lexCanon [] fs_c10 [("path".data, "a.txt".data)]
    (fun _ => none) "a.txt".data ["a.txt".data] (by decide) (by decide) (by decide)
    (by decide)
